import Mathlib

/-!
Shallow embedding of the Express product API in `server.js`
(week-2-express-js-assignment): data model, middleware, route handlers,
and the request dispatch of the application stack, together with theorems
about the behaviours the specification describes.
-/

namespace ProductApi

/-- A JavaScript value as it can appear in the `price` field of a request
body (validation inspects `typeof price`, so non-numbers must be
representable). Numbers are embedded as integers: every price occurring
in the repository is integral. -/
inductive JsValue where
  | num (n : Int)
  | str (s : String)
  | boolean (b : Bool)
  | nullv
deriving DecidableEq

/-- JavaScript truthiness of a `JsValue`: `0`, `""`, `false` and `null`
are falsy. -/
def JsValue.truthy : JsValue → Bool
  | .num n => n != 0
  | .str s => !s.isEmpty
  | .boolean b => b
  | .nullv => false

/-- The check `typeof price === 'number'`. -/
def JsValue.isNumber : JsValue → Bool
  | .num _ => true
  | _ => false

/-- JavaScript truthiness of a possibly-absent field: `undefined` is falsy. -/
def optTruthy : Option JsValue → Bool
  | some v => v.truthy
  | none => false

/-- JavaScript truthiness of a possibly-absent string field: `undefined`
and `""` are falsy. -/
def strTruthy : Option String → Bool
  | some s => !s.isEmpty
  | none => false

/-- The numeric value of a `price` field; non-numbers map to 0, which the
validator never lets through to a handler. -/
def priceNum : Option JsValue → Int
  | some (.num n) => n
  | _ => 0

/-- A product record of the in-memory store (`server.js` sample database
and the records built by the create handler). -/
structure Product where
  id : String
  name : String
  description : String
  price : Int
  category : String
  inStock : Bool
deriving DecidableEq

/-- A parsed JSON request body. Fields are optional: a JSON body may omit
any of them. `name`, `description`, `category` are typed as strings and
`inStock` as a boolean per the data model; `price` is a full `JsValue`
because the validator checks `typeof price`. -/
structure ReqBody where
  name : Option String := none
  description : Option String := none
  price : Option JsValue := none
  category : Option String := none
  inStock : Option Bool := none
deriving DecidableEq

/-- The error taxonomy of `server.js`: `AuthError` (401),
`ValidationError` (400), `NotFoundError` (404), each carrying a message. -/
inductive AppError where
  | authError (message : String)
  | validationError (message : String)
  | notFoundError (message : String)
deriving DecidableEq

/-- The `statusCode` field each error class sets in its constructor. -/
def AppError.statusCode : AppError → Int
  | .authError _ => 401
  | .validationError _ => 400
  | .notFoundError _ => 404

/-- The `name` field of each error class. -/
def AppError.errName : AppError → String
  | .authError _ => "AuthError"
  | .validationError _ => "ValidationError"
  | .notFoundError _ => "NotFoundError"

/-- The `message` carried by the error. -/
def AppError.message : AppError → String
  | .authError m => m
  | .validationError m => m
  | .notFoundError m => m

/-- The authentication middleware: reads the `x-api-key` header (absent =
`none`) and throws `AuthError` unless it is present and equals the static
secret. NOTE: `server.js` defines this function but never mounts it on the
app or on any route. -/
def authenticate (apiKey : Option String) : Except AppError Unit :=
  match apiKey with
  | none => .error (.authError "Invalid or missing API key")
  | some k =>
    if !k.isEmpty && k == "secret-api-key" then .ok ()
    else .error (.authError "Invalid or missing API key")

/-- The validation middleware `validateProduct`: on POST or PUT it requires
truthy `name` and `price`, and `price` to be a number strictly greater
than 0; otherwise it passes through. -/
def validateProduct (method : String) (body : ReqBody) : Except AppError Unit :=
  if method == "POST" || method == "PUT" then
    if !strTruthy body.name || !optTruthy body.price then
      .error (.validationError "Name and price are required")
    else if !(body.price.getD .nullv).isNumber || priceNum body.price ≤ 0 then
      .error (.validationError "Price must be a positive number")
    else .ok ()
  else .ok ()

/-- The three seeded sample products of the in-memory database. -/
def seedProducts : List Product :=
  [ { id := "1", name := "Laptop",
      description := "High-performance laptop with 16GB RAM",
      price := 1200, category := "electronics", inStock := true },
    { id := "2", name := "Smartphone",
      description := "Latest model with 128GB storage",
      price := 800, category := "electronics", inStock := true },
    { id := "3", name := "Coffee Maker",
      description := "Programmable coffee maker with timer",
      price := 50, category := "kitchen", inStock := false } ]

/-- `String.prototype.toLowerCase`, modelled per character. -/
def jsToLower (s : String) : String :=
  String.mk (s.data.map Char.toLower)

/-- Does `needle` occur at the start of `hay`? Helper for substring search. -/
def beginsWith : List Char → List Char → Bool
  | [], _ => true
  | _ :: _, [] => false
  | a :: as, b :: bs => a == b && beginsWith as bs

/-- Does `needle` occur anywhere in `hay`? Helper for substring search. -/
def containsSub (needle : List Char) : List Char → Bool
  | [] => needle.isEmpty
  | c :: rest => beginsWith needle (c :: rest) || containsSub needle rest

/-- `String.prototype.includes`: `strIncludes s sub` is `s.includes(sub)`. -/
def strIncludes (s sub : String) : Bool :=
  containsSub sub.data s.data

/-- The JavaScript idiom `parseInt(q) || d`: `none` stands for an absent
query parameter or a `NaN` parse result, and a parsed `0` is falsy, so
both fall back to the default. -/
def intOr (v : Option Int) (d : Int) : Int :=
  match v with
  | some n => if n == 0 then d else n
  | none => d

/-- The JavaScript idiom `s || d` on a possibly-absent string field. -/
def jsOrStr (v : Option String) (d : String) : String :=
  match v with
  | some s => if s.isEmpty then d else s
  | none => d

/-- `Math.ceil(a / b)` for integers `a` and `b ≠ 0` (exact for the integer
magnitudes this program manipulates). -/
def jsCeilDiv (a b : Int) : Int :=
  -((-a).fdiv b)

/-- `Array.prototype.slice(start, stop)`: negative indices count from the
end, and both indices clamp to `[0, length]`. -/
def jsSlice {α : Type} (l : List α) (start stop : Int) : List α :=
  let len : Int := l.length
  let s := if start < 0 then max (len + start) 0 else min start len
  let e := if stop < 0 then max (len + stop) 0 else min stop len
  (l.drop s.toNat).take (e - s).toNat

/-- The response envelope of `GET /api/products`:
`{total, page, pages, products}`. -/
structure ListResponse where
  total : Nat
  page : Int
  pages : Int
  products : List Product
deriving DecidableEq

/-- The category-filtering step of the list handler: skipped when the
`category` query is absent or empty (falsy), otherwise an exact
case-insensitive match. -/
def categoryFiltered (store : List Product) (category : Option String) : List Product :=
  match category with
  | some c => if c.isEmpty then store
      else store.filter (fun p => jsToLower p.category == jsToLower c)
  | none => store

/-- The value of `filteredProducts` after both filters: the category
filter, then the case-insensitive name-substring search (skipped when the
`search` query is absent or empty). -/
def filteredList (store : List Product) (category search : Option String) : List Product :=
  match search with
  | some s => if s.isEmpty then categoryFiltered store category
      else (categoryFiltered store category).filter
        (fun p => strIncludes (jsToLower p.name) (jsToLower s))
  | none => categoryFiltered store category

/-- The `GET /api/products` handler: category filter, then name search,
then pagination over the filtered list. `pageQ` and `limitQ` are the
`parseInt` results of the query strings (`none` for absent or
non-numeric). -/
def getProductsHandler (store : List Product) (category search : Option String)
    (pageQ limitQ : Option Int) : ListResponse :=
  let f2 := filteredList store category search
  let page := intOr pageQ 1
  let limit := intOr limitQ 10
  { total := f2.length
    page := page
    pages := jsCeilDiv f2.length limit
    products := jsSlice f2 ((page - 1) * limit) (page * limit) }

/-- The response of `GET /api/products/stats`; `categories` is the
category→count mapping as an association list in first-occurrence order. -/
structure StatsResponse where
  totalProducts : Nat
  inStock : Nat
  categories : List (String × Nat)
deriving DecidableEq

/-- Increment the count of `c` in the association list, appending a new
entry when absent (the order `Object.keys` would report). -/
def bumpCategory : List (String × Nat) → String → List (String × Nat)
  | [], c => [(c, 1)]
  | (k, n) :: rest, c =>
    if k == c then (k, n + 1) :: rest else (k, n) :: bumpCategory rest c

/-- The `GET /api/products/stats` handler. -/
def statsHandler (store : List Product) : StatsResponse :=
  { totalProducts := store.length
    inStock := (store.filter (fun p => p.inStock)).length
    categories := store.foldl (fun acc p => bumpCategory acc p.category) [] }

/-- The `GET /api/products/:id` handler: linear search, `NotFoundError`
when absent. -/
def getProductHandler (store : List Product) (id : String) : Except AppError Product :=
  match store.find? (fun p => p.id == id) with
  | some p => .ok p
  | none => .error (.notFoundError "Product not found")

/-- The record the create handler builds: `id` from the uuid generator,
`description` defaulting to `""`, `category` to `"uncategorized"`,
`inStock` to `true` when absent. The handler runs only after validation,
which guarantees `name` is a present nonempty string and `price` a
positive number, so the `getD`/`priceNum` fallbacks are never exercised. -/
def createProduct (body : ReqBody) (newId : String) : Product :=
  { id := newId
    name := body.name.getD ""
    description := jsOrStr body.description ""
    price := priceNum body.price
    category := jsOrStr body.category "uncategorized"
    inStock := body.inStock.getD true }

/-- The `POST /api/products` route: `validateProduct` runs first (a thrown
`ValidationError` aborts before the handler), then the handler appends the
new record and responds 201. Returns the response-or-error and the store
after the request. -/
def postRoute (store : List Product) (body : ReqBody) (newId : String) :
    Except AppError (Int × Product) × List Product :=
  match validateProduct "POST" body with
  | .error e => (.error e, store)
  | .ok _ =>
    let p := createProduct body newId
    (.ok (201, p), store ++ [p])

/-- The field merge of the update handler (`Object.assign`): `name`,
`description`, `price`, `category` are overwritten when the body's value
is truthy and kept otherwise; `inStock` is overwritten exactly when it is
present (`!== undefined`), even when `false`. The `id` field is not
assigned. A truthy non-numeric `price` cannot reach this merge because
validation rejects it, so the model keeps the old price there. -/
def mergeProduct (body : ReqBody) (p : Product) : Product :=
  { p with
    name := jsOrStr body.name p.name
    description := jsOrStr body.description p.description
    price := match body.price with
      | some (.num n) => if n == 0 then p.price else n
      | _ => p.price
    category := jsOrStr body.category p.category
    inStock := body.inStock.getD p.inStock }

/-- Replace the first record whose `id` matches, in place (the handler
mutates the object returned by `products.find`). -/
def replaceFirst (store : List Product) (id : String) (f : Product → Product) :
    List Product :=
  match store with
  | [] => []
  | p :: rest =>
    if p.id == id then f p :: rest else p :: replaceFirst rest id f

/-- The `PUT /api/products/:id` route: validation, then lookup
(`NotFoundError` when absent), then the in-place merge; responds 200 with
the updated record. -/
def putRoute (store : List Product) (id : String) (body : ReqBody) :
    Except AppError Product × List Product :=
  match validateProduct "PUT" body with
  | .error e => (.error e, store)
  | .ok _ =>
    match store.find? (fun p => p.id == id) with
    | none => (.error (.notFoundError "Product not found"), store)
    | some p => (.ok (mergeProduct body p), replaceFirst store id (mergeProduct body))

/-- The `DELETE /api/products/:id` route: existence check
(`NotFoundError` when absent), then the store is replaced by the filtered
copy; responds 204. -/
def deleteRoute (store : List Product) (id : String) :
    Except AppError Unit × List Product :=
  if store.any (fun p => p.id == id) then
    (.ok (), store.filter (fun p => p.id != id))
  else
    (.error (.notFoundError "Product not found"), store)

/-- The body of an HTTP response the app can send. `defaultError` is the
HTML error page Express's built-in final handler emits (carrying the
status it takes from the error object); `errorEnvelope` is the JSON shape
`{error: {name, message, status}}` the app's own error middleware would
emit. -/
inductive RespBody where
  | text (s : String)
  | listing (r : ListResponse)
  | stats (r : StatsResponse)
  | product (p : Product)
  | empty
  | errorEnvelope (name message : String) (status : Int)
  | defaultError (status : Int)
deriving DecidableEq

/-- An HTTP response: status code and body. -/
structure Response where
  status : Int
  body : RespBody
deriving DecidableEq

/-- The app's error-handling middleware (lines 73-83 of `server.js`):
given the error's `name`, `message` and optional `statusCode`, it responds
with `err.statusCode || 500` and the JSON envelope. In the actual stack
this middleware is registered BEFORE every route, so errors thrown in
route middleware or handlers never reach it (Express dispatches errors
only forward through the stack); it is modelled here both on its own and
inside `handleRequest`. -/
def errorMiddleware (name message : String) (statusCode : Option Int) : Response :=
  let status := match statusCode with
    | some n => if n == 0 then 500 else n
    | none => 500
  { status := status, body := .errorEnvelope name message status }

/-- The response Express's built-in final handler produces for an error
that no error middleware caught: the status is taken from the error's
`status`/`statusCode` field and the body is the default HTML page, not the
JSON envelope. -/
def expressDefault (e : AppError) : Response :=
  { status := e.statusCode, body := .defaultError e.statusCode }

/-- A route of the app together with its per-route input. -/
inductive ReqRoute where
  | root
  | listProducts (category search : Option String) (pageQ limitQ : Option Int)
  | stats
  | getProduct (id : String)
  | postProduct (body : ReqBody)
  | putProduct (id : String) (body : ReqBody)
  | deleteProduct (id : String)
deriving DecidableEq

/-- An HTTP request: the matched route and the `x-api-key` header
(`none` when absent). -/
structure Request where
  route : ReqRoute
  apiKey : Option String
deriving DecidableEq

/-- The whole application on one request: the store before, the request,
and the uuid the generator would produce, giving the response and the
store after. The stack of `server.js` is, in registration order: logger,
JSON body parser, the error middleware, then the six routes. No route has
`authenticate` attached (the function is never mounted), so `req.apiKey`
is never consulted; and because the error middleware sits before the
routes in the stack, an error thrown in `validateProduct` or a handler
skips it and falls through to Express's default final handler. -/
def handleRequest (store : List Product) (req : Request) (newId : String) :
    Response × List Product :=
  match req.route with
  | .root =>
    ({ status := 200, body := .text
        "Welcome to the Product API! Go to /api/products to see all products." },
     store)
  | .listProducts c s pq lq =>
    ({ status := 200, body := .listing (getProductsHandler store c s pq lq) }, store)
  | .stats =>
    ({ status := 200, body := .stats (statsHandler store) }, store)
  | .getProduct id =>
    match getProductHandler store id with
    | .ok p => ({ status := 200, body := .product p }, store)
    | .error e => (expressDefault e, store)
  | .postProduct body =>
    match postRoute store body newId with
    | (.ok (st, p), store') => ({ status := st, body := .product p }, store')
    | (.error e, store') => (expressDefault e, store')
  | .putProduct id body =>
    match putRoute store id body with
    | (.ok p, store') => ({ status := 200, body := .product p }, store')
    | (.error e, store') => (expressDefault e, store')
  | .deleteProduct id =>
    match deleteRoute store id with
    | (.ok _, store') => ({ status := 204, body := .empty }, store')
    | (.error e, store') => (expressDefault e, store')

/-- The store states reachable from the seeded database through the
mutating routes. Create steps carry the hypothesis that the uuid generator
returned an id distinct from every id already stored. -/
inductive Reachable : List Product → Prop where
  | seed : Reachable seedProducts
  | create (s : List Product) (body : ReqBody) (newId : String)
      (h : Reachable s) (hfresh : ∀ p ∈ s, p.id ≠ newId) :
      Reachable (postRoute s body newId).2
  | update (s : List Product) (id : String) (body : ReqBody)
      (h : Reachable s) : Reachable (putRoute s id body).2
  | del (s : List Product) (id : String)
      (h : Reachable s) : Reachable (deleteRoute s id).2

/-! Helper lemmas about the pagination arithmetic and list operations. -/

theorem jsCeilDiv_mul_le (len : Nat) (limit : Int) (hl : 0 < limit) :
    (len : Int) ≤ jsCeilDiv len limit * limit := by
  have h := Int.ediv_mul_le (-(len : Int)) hl.ne'
  unfold jsCeilDiv
  rw [Int.fdiv_eq_ediv _ hl.le]
  rw [neg_mul]
  omega

theorem jsCeilDiv_eq_ceil (len : Nat) (limit : Int) (hl : 0 < limit) :
    jsCeilDiv len limit = ⌈(len : ℚ) / (limit : ℚ)⌉ := by
  have hl' : (0 : ℚ) < (limit : ℚ) := by exact_mod_cast hl
  have h1 : (len : Int) ≤ jsCeilDiv len limit * limit := jsCeilDiv_mul_le len limit hl
  have h2 : (jsCeilDiv len limit - 1) * limit < (len : Int) := by
    have h := Int.lt_ediv_add_one_mul_self (-(len : Int)) hl
    unfold jsCeilDiv
    rw [Int.fdiv_eq_ediv _ hl.le]
    nlinarith [h]
  symm
  rw [Int.ceil_eq_iff]
  constructor
  · rw [lt_div_iff₀ hl']
    calc ((jsCeilDiv len limit : ℚ) - 1) * (limit : ℚ)
        = (((jsCeilDiv len limit - 1) * limit : Int) : ℚ) := by push_cast; ring
      _ < ((len : Int) : ℚ) := by exact_mod_cast h2
      _ = (len : ℚ) := by push_cast; rfl
  · rw [div_le_iff₀ hl']
    calc (len : ℚ) = ((len : Int) : ℚ) := by push_cast; rfl
      _ ≤ ((jsCeilDiv len limit * limit : Int) : ℚ) := by exact_mod_cast h1
      _ = (jsCeilDiv len limit : ℚ) * (limit : ℚ) := by push_cast; ring

theorem jsSlice_nonneg {α : Type} (l : List α) (s limit : Int)
    (hs : 0 ≤ s) (hlim : 0 ≤ limit) :
    jsSlice l s (s + limit) = (l.drop s.toNat).take limit.toNat := by
  have hsl : ¬ s < 0 := not_lt.mpr hs
  have hel : ¬ s + limit < 0 := by omega
  rcases le_or_lt (l.length : Int) s with h | h
  · have h1 : min s (l.length : Int) = (l.length : Int) := min_eq_right h
    have h2 : min (s + limit) (l.length : Int) = (l.length : Int) :=
      min_eq_right (by omega)
    simp only [jsSlice, if_neg hsl, if_neg hel, h1, h2, sub_self, Int.toNat_zero,
      List.take_zero, Int.toNat_natCast]
    rw [List.drop_eq_nil_of_le (by omega : l.length ≤ s.toNat), List.take_nil]
  · have h1 : min s (l.length : Int) = s := min_eq_left h.le
    rcases le_or_lt (s + limit) (l.length : Int) with h2 | h2
    · have h2' : min (s + limit) (l.length : Int) = s + limit := min_eq_left h2
      simp only [jsSlice, if_neg hsl, if_neg hel, h1, h2']
      congr 1
      omega
    · have h2' : min (s + limit) (l.length : Int) = (l.length : Int) :=
        min_eq_right h2.le
      simp only [jsSlice, if_neg hsl, if_neg hel, h1, h2']
      rw [List.take_of_length_le, List.take_of_length_le]
      · rw [List.length_drop]; omega
      · rw [List.length_drop]; omega

theorem replaceFirst_length (l : List Product) (id : String) (f : Product → Product) :
    (replaceFirst l id f).length = l.length := by
  induction l with
  | nil => rfl
  | cons p rest ih =>
    simp only [replaceFirst]
    split <;> simp [ih]

theorem replaceFirst_getD_ne (l : List Product) (id : String) (f : Product → Product)
    (d : Product) (i : Nat) (hne : (l.getD i d).id ≠ id) :
    (replaceFirst l id f).getD i d = l.getD i d := by
  induction l generalizing i with
  | nil => rfl
  | cons p rest ih =>
    by_cases hp : p.id == id
    · cases i with
      | zero =>
        exact absurd (by simpa using hp) (by simpa using hne)
      | succ n =>
        simp only [replaceFirst, if_pos hp, List.getD_cons_succ]
    · cases i with
      | zero =>
        simp only [replaceFirst, if_neg hp, List.getD_cons_zero]
      | succ n =>
        simp only [replaceFirst, if_neg hp, List.getD_cons_succ]
        exact ih n (by simpa using hne)

theorem replaceFirst_map_id (l : List Product) (id : String) (f : Product → Product)
    (hf : ∀ p, (f p).id = p.id) :
    (replaceFirst l id f).map Product.id = l.map Product.id := by
  induction l with
  | nil => rfl
  | cons p rest ih =>
    simp only [replaceFirst]
    split <;> simp [ih, hf]

theorem mergeProduct_id (body : ReqBody) (p : Product) :
    (mergeProduct body p).id = p.id := rfl

/-! Claim theorems. -/

/-- C1: the spec claims every route is gated by the `x-api-key` check and
that a keyless request cannot mutate the store. The code defines
`authenticate` (which would indeed reject a missing key with a 401
`AuthError`) but never mounts it, so a request without any `x-api-key`
header sails through: `GET /api/products` returns 200 with the full
listing, and `DELETE /api/products/1` returns 204 and removes the record
from the seeded store. -/
theorem auth_gate_missing :
    authenticate none = .error (.authError "Invalid or missing API key")
    ∧ (handleRequest seedProducts
        { route := .listProducts none none none none, apiKey := none } "u1").1.status = 200
    ∧ (handleRequest seedProducts
        { route := .deleteProduct "1", apiKey := none } "u1").1.status = 204
    ∧ (handleRequest seedProducts
        { route := .deleteProduct "1", apiKey := none } "u1").2 ≠ seedProducts := by
  refine ⟨rfl, rfl, rfl, by decide⟩

/-- C2 counterexample: against the seeded store, `PUT /api/products/2`
with body `{"price": 750}` (and the correct api key) does not return 200:
`validateProduct` requires a truthy `name` on PUT, so the request fails
with `ValidationError` and the store is untouched. -/
theorem put_price_only_rejected :
    (handleRequest seedProducts
      { route := .putProduct "2" { price := some (.num 750) },
        apiKey := some "secret-api-key" } "u1").1.status = 400
    ∧ (putRoute seedProducts "2" { price := some (.num 750) }).1
        = .error (.validationError "Name and price are required")
    ∧ (putRoute seedProducts "2" { price := some (.num 750) }).2 = seedProducts := by
  refine ⟨rfl, rfl, by decide⟩

/-- C2 amended: a `PUT` body must contain a truthy `name` and a positive
numeric `price` to pass validation, so `{"price":750}` is rejected with a
400 `ValidationError`; a body that also carries the name, such as
`{"name":"Smartphone","price":750}`, may still omit `description`,
`category` and `inStock` and succeeds with 200, the returned record
keeping the original description and category while `price` becomes
750. -/
theorem put_partial_body :
    (putRoute seedProducts "2" { price := some (.num 750) }).1
      = .error (.validationError "Name and price are required")
    ∧ (handleRequest seedProducts
        { route := .putProduct "2" { name := some "Smartphone", price := some (.num 750) },
          apiKey := some "secret-api-key" } "u1").1
      = { status := 200,
          body := .product
            { id := "2", name := "Smartphone",
              description := "Latest model with 128GB storage",
              price := 750, category := "electronics", inStock := true } } := by
  refine ⟨rfl, by decide⟩

/-- C3: the spec claims every raised error is answered with the JSON
envelope `{error: {name, message, status}}`. The error middleware of
`server.js` would indeed build that envelope, but it is registered before
every route, and Express propagates errors only forward through the
stack: an error thrown in a route handler (for instance the
`NotFoundError` of `GET /api/products/999`) bypasses it and is answered
by Express's default final handler with an HTML body — the right status
code but not the envelope. -/
theorem error_envelope_unreachable :
    (handleRequest seedProducts
      { route := .getProduct "999", apiKey := some "secret-api-key" } "u1").1
      = { status := 404, body := .defaultError 404 }
    ∧ (handleRequest seedProducts
        { route := .getProduct "999", apiKey := some "secret-api-key" } "u1").1.body
      ≠ .errorEnvelope "NotFoundError" "Product not found" 404
    ∧ errorMiddleware "NotFoundError" "Product not found" (some 404)
      = { status := 404,
          body := .errorEnvelope "NotFoundError" "Product not found" 404 } := by
  refine ⟨rfl, by decide, rfl⟩

/-- C4 counterexample: the pagination parameters come from
`parseInt(q) || default`, which lets negative values through. Against the
seeded store, `GET /api/products?limit=-1` produces a `products` array of
length 2, violating the claimed `products.length <= limit` (2 ≤ -1 is
false); and `GET /api/products?page=-1&limit=1` slices from the end of the
array, returning the record with id "2" rather than the slice
`F[(page-1)*limit, page*limit)` of valid indices (which is empty). -/
theorem pagination_negative_query :
    ((getProductsHandler seedProducts none none none (some (-1))).products.length : Int) = 2
    ∧ ¬ (((getProductsHandler seedProducts none none none (some (-1))).products.length : Int)
          ≤ intOr (some (-1)) 10)
    ∧ (getProductsHandler seedProducts none none (some (-1)) (some 1)).products.map Product.id
        = ["2"] := by
  refine ⟨by decide, by decide, by decide⟩

/-- C4 amended: for every `GET /api/products` request whose parsed `page`
and `limit` (after the `|| 1` and `|| 10` defaults) are at least 1,
letting `F` be the store after the category filter and then the search
filter: `total = F.length`, `pages = ceil(total / limit)`, `products` is
the slice of `F` starting at `(page-1)*limit` of at most `limit` elements
(so `products.length ≤ limit`), and any page strictly beyond `pages`
yields an empty `products` array with `total` and `pages` unchanged, never
an error. Negative parsed values (e.g. `limit=-1`) escape these bounds. -/
theorem pagination_correct (store : List Product) (c s : Option String)
    (pq lq : Option Int) (hp : 1 ≤ intOr pq 1) (hl : 1 ≤ intOr lq 10) :
    (getProductsHandler store c s pq lq).total = (filteredList store c s).length
    ∧ (getProductsHandler store c s pq lq).pages
        = ⌈((filteredList store c s).length : ℚ) / (intOr lq 10 : ℚ)⌉
    ∧ (getProductsHandler store c s pq lq).products
        = ((filteredList store c s).drop ((intOr pq 1 - 1) * intOr lq 10).toNat).take
            (intOr lq 10).toNat
    ∧ ((getProductsHandler store c s pq lq).products.length : Int) ≤ intOr lq 10
    ∧ ((getProductsHandler store c s pq lq).pages < intOr pq 1 →
        (getProductsHandler store c s pq lq).products = []) := by
  have hred : getProductsHandler store c s pq lq
      = { total := (filteredList store c s).length
          page := intOr pq 1
          pages := jsCeilDiv (filteredList store c s).length (intOr lq 10)
          products := jsSlice (filteredList store c s)
            ((intOr pq 1 - 1) * intOr lq 10) (intOr pq 1 * intOr lq 10) } := rfl
  rw [hred]
  dsimp only
  have hl0 : 0 < intOr lq 10 := by omega
  have hslice : jsSlice (filteredList store c s)
      ((intOr pq 1 - 1) * intOr lq 10) (intOr pq 1 * intOr lq 10)
      = ((filteredList store c s).drop ((intOr pq 1 - 1) * intOr lq 10).toNat).take
          (intOr lq 10).toNat := by
    have h := jsSlice_nonneg (filteredList store c s)
      ((intOr pq 1 - 1) * intOr lq 10) (intOr lq 10)
      (mul_nonneg (by omega) (by omega)) (by omega)
    rw [← h]
    congr 1
    ring
  refine ⟨rfl, jsCeilDiv_eq_ceil _ _ hl0, hslice, ?_, ?_⟩
  · rw [hslice]
    have h4 := List.length_take_le (intOr lq 10).toNat
      ((filteredList store c s).drop ((intOr pq 1 - 1) * intOr lq 10).toNat)
    omega
  · intro hbeyond
    rw [hslice]
    have h1 : ((filteredList store c s).length : Int)
        ≤ jsCeilDiv (filteredList store c s).length (intOr lq 10) * intOr lq 10 :=
      jsCeilDiv_mul_le _ _ hl0
    have h2 : jsCeilDiv (filteredList store c s).length (intOr lq 10) * intOr lq 10
        ≤ (intOr pq 1 - 1) * intOr lq 10 :=
      mul_le_mul_of_nonneg_right (by omega) hl0.le
    rw [List.drop_eq_nil_of_le
      (by omega : (filteredList store c s).length ≤ ((intOr pq 1 - 1) * intOr lq 10).toNat),
      List.take_nil]

/-- C4 amended witness: the spec's own scenario
`GET /api/products?category=electronics&page=1&limit=1` against the seeded
store, instantiating the pagination theorem at page 1 and limit 1. -/
theorem pagination_correct_witness :
    (getProductsHandler seedProducts (some "electronics") none (some 1) (some 1)).total
        = (filteredList seedProducts (some "electronics") none).length
    ∧ (getProductsHandler seedProducts (some "electronics") none (some 1) (some 1)).pages
        = ⌈((filteredList seedProducts (some "electronics") none).length : ℚ)
            / (intOr (some 1) 10 : ℚ)⌉
    ∧ (getProductsHandler seedProducts (some "electronics") none (some 1) (some 1)).products
        = ((filteredList seedProducts (some "electronics") none).drop
            ((intOr (some 1) 1 - 1) * intOr (some 1) 10).toNat).take
            (intOr (some 1) 10).toNat
    ∧ (((getProductsHandler seedProducts (some "electronics") none
          (some 1) (some 1)).products.length : Int) ≤ intOr (some 1) 10)
    ∧ ((getProductsHandler seedProducts (some "electronics") none (some 1) (some 1)).pages
          < intOr (some 1) 1 →
        (getProductsHandler seedProducts (some "electronics") none (some 1) (some 1)).products
          = []) :=
  pagination_correct seedProducts (some "electronics") none (some 1) (some 1)
    (by decide) (by decide)

theorem mem_of_mem_jsSlice {α : Type} {a : α} {l : List α} {s e : Int}
    (h : a ∈ jsSlice l s e) : a ∈ l := by
  unfold jsSlice at h
  exact List.mem_of_mem_drop (List.mem_of_mem_take h)

/-- C5: for a nonempty `category=X` query, with `search` absent the
filtered list is exactly the stored records whose category equals `X`
case-insensitively, and with a nonempty `search=Y` query it is exactly the
stored records satisfying both the category match and the case-insensitive
name-substring match (the two filters applied in sequence agree with the
single combined filter); in both cases the handler paginates that filtered
list, and every returned product is a stored record satisfying the active
predicates. -/
theorem category_search_filter (store : List Product) (X Y : String)
    (pq lq : Option Int) (hX : ¬ X.isEmpty) (hY : ¬ Y.isEmpty) :
    (filteredList store (some X) none
        = store.filter (fun p => jsToLower p.category == jsToLower X)
      ∧ (getProductsHandler store (some X) none pq lq).products
        = jsSlice (filteredList store (some X) none)
            ((intOr pq 1 - 1) * intOr lq 10) (intOr pq 1 * intOr lq 10)
      ∧ ∀ p ∈ (getProductsHandler store (some X) none pq lq).products,
          p ∈ store ∧ jsToLower p.category = jsToLower X)
    ∧ (filteredList store (some X) (some Y)
        = store.filter (fun p => jsToLower p.category == jsToLower X
            && strIncludes (jsToLower p.name) (jsToLower Y))
      ∧ (getProductsHandler store (some X) (some Y) pq lq).products
        = jsSlice (filteredList store (some X) (some Y))
            ((intOr pq 1 - 1) * intOr lq 10) (intOr pq 1 * intOr lq 10)
      ∧ ∀ p ∈ (getProductsHandler store (some X) (some Y) pq lq).products,
          p ∈ store ∧ jsToLower p.category = jsToLower X
            ∧ strIncludes (jsToLower p.name) (jsToLower Y) = true) := by
  have hcat : filteredList store (some X) none
      = store.filter (fun p => jsToLower p.category == jsToLower X) := by
    simp only [filteredList, categoryFiltered]
    rw [if_neg hX]
  have hcomb : filteredList store (some X) (some Y)
      = store.filter (fun p => jsToLower p.category == jsToLower X
          && strIncludes (jsToLower p.name) (jsToLower Y)) := by
    simp only [filteredList, categoryFiltered]
    rw [if_neg hY, if_neg hX, List.filter_filter]
    apply List.filter_congr
    intro p _
    rw [Bool.and_comm]
  refine ⟨⟨hcat, rfl, ?_⟩, hcomb, rfl, ?_⟩
  · intro p hp
    have hmem : p ∈ filteredList store (some X) none :=
      mem_of_mem_jsSlice (show p ∈ jsSlice (filteredList store (some X) none)
        ((intOr pq 1 - 1) * intOr lq 10) (intOr pq 1 * intOr lq 10) from hp)
    rw [hcat] at hmem
    have h := List.mem_filter.mp hmem
    exact ⟨h.1, eq_of_beq h.2⟩
  · intro p hp
    have hmem : p ∈ filteredList store (some X) (some Y) :=
      mem_of_mem_jsSlice (show p ∈ jsSlice (filteredList store (some X) (some Y))
        ((intOr pq 1 - 1) * intOr lq 10) (intOr pq 1 * intOr lq 10) from hp)
    rw [hcomb] at hmem
    have h := List.mem_filter.mp hmem
    refine ⟨h.1, ?_, ?_⟩
    · have := (Bool.and_eq_true _ _).mp h.2
      exact eq_of_beq this.1
    · exact ((Bool.and_eq_true _ _).mp h.2).2

/-- C5 witness: the seeded store with `category=electronics`, both without
a search query (the two electronics records) and with `search=phone` (the
Smartphone only). -/
theorem category_search_filter_witness :
    (filteredList seedProducts (some "electronics") none
        = seedProducts.filter (fun p => jsToLower p.category == jsToLower "electronics")
      ∧ (getProductsHandler seedProducts (some "electronics") none none none).products
        = jsSlice (filteredList seedProducts (some "electronics") none)
            ((intOr none 1 - 1) * intOr none 10) (intOr none 1 * intOr none 10)
      ∧ ∀ p ∈ (getProductsHandler seedProducts (some "electronics") none none none).products,
          p ∈ seedProducts ∧ jsToLower p.category = jsToLower "electronics")
    ∧ (filteredList seedProducts (some "electronics") (some "phone")
        = seedProducts.filter (fun p => jsToLower p.category == jsToLower "electronics"
            && strIncludes (jsToLower p.name) (jsToLower "phone"))
      ∧ (getProductsHandler seedProducts (some "electronics")
            (some "phone") none none).products
        = jsSlice (filteredList seedProducts (some "electronics") (some "phone"))
            ((intOr none 1 - 1) * intOr none 10) (intOr none 1 * intOr none 10)
      ∧ ∀ p ∈ (getProductsHandler seedProducts (some "electronics")
            (some "phone") none none).products,
          p ∈ seedProducts ∧ jsToLower p.category = jsToLower "electronics"
            ∧ strIncludes (jsToLower p.name) (jsToLower "phone") = true) :=
  category_search_filter seedProducts "electronics" "phone" none none
    (by decide) (by decide)

/-- C6: on POST and PUT, `validateProduct` raises a `ValidationError`
exactly when `name` is absent or falsy, or `price` is absent or falsy, or
`price` is not a number, or `price ≤ 0` (so a supplied price of 0 is
rejected); in every other case it returns control unchanged, and any
error it raises is a `ValidationError`. -/
theorem validateProduct_exact (m : String) (body : ReqBody)
    (hm : m = "POST" ∨ m = "PUT") :
    ((∃ msg, validateProduct m body = .error (.validationError msg))
      ↔ (strTruthy body.name = false ∨ optTruthy body.price = false
          ∨ (body.price.getD .nullv).isNumber = false ∨ priceNum body.price ≤ 0))
    ∧ (validateProduct m body = .ok ()
        ∨ ∃ msg, validateProduct m body = .error (.validationError msg)) := by
  have hcond : (m == "POST" || m == "PUT") = true := by
    rcases hm with h | h <;> subst h <;> rfl
  unfold validateProduct
  rw [if_pos hcond]
  cases hn : strTruthy body.name <;>
    cases htr : optTruthy body.price <;>
      cases hnum : (body.price.getD .nullv).isNumber <;>
        rcases le_or_lt (priceNum body.price) 0 with hle | hlt <;>
          first
            | simp [hn, htr, hnum, hle]
            | simp [hn, htr, hnum, hlt.not_le, hlt]

/-- C6 witness: a POST body with a name and a supplied price of 0 is
rejected (price 0 is falsy), instantiating the exactness theorem. -/
theorem validateProduct_exact_witness :
    ((∃ msg, validateProduct "POST" { name := some "Laptop", price := some (.num 0) }
        = .error (.validationError msg))
      ↔ (strTruthy ({ name := some "Laptop", price := some (.num 0) } : ReqBody).name = false
          ∨ optTruthy ({ name := some "Laptop", price := some (.num 0) } : ReqBody).price = false
          ∨ (({ name := some "Laptop", price := some (.num 0) } : ReqBody).price.getD
              .nullv).isNumber = false
          ∨ priceNum ({ name := some "Laptop", price := some (.num 0) } : ReqBody).price ≤ 0))
    ∧ (validateProduct "POST" { name := some "Laptop", price := some (.num 0) } = .ok ()
        ∨ ∃ msg, validateProduct "POST" { name := some "Laptop", price := some (.num 0) }
            = .error (.validationError msg)) :=
  validateProduct_exact "POST" { name := some "Laptop", price := some (.num 0) } (Or.inl rfl)

/-- C7: every POST whose body passes validation appends to the store a
record carrying the generated id, the body's name and price, description
defaulting to `""`, category defaulting to `"uncategorized"` and `inStock`
defaulting to `true` when absent, and answers 201 with exactly that
record. -/
theorem post_creates (store : List Product) (body : ReqBody) (newId : String)
    (hv : validateProduct "POST" body = .ok ()) :
    postRoute store body newId
      = (.ok (201, createProduct body newId), store ++ [createProduct body newId])
    ∧ (createProduct body newId).id = newId
    ∧ (createProduct body newId).name = body.name.getD ""
    ∧ (createProduct body newId).price = priceNum body.price
    ∧ (body.description = none → (createProduct body newId).description = "")
    ∧ (body.category = none → (createProduct body newId).category = "uncategorized")
    ∧ (body.inStock = none → (createProduct body newId).inStock = true) := by
  refine ⟨?_, rfl, rfl, rfl, ?_, ?_, ?_⟩
  · unfold postRoute
    rw [hv]
  · intro h
    simp [createProduct, jsOrStr, h]
  · intro h
    simp [createProduct, jsOrStr, h]
  · intro h
    simp [createProduct, h]

/-- C7 witness: the spec's scenario — `{"name":"Kettle","price":30}`
against the seeded store yields 201 with category `"uncategorized"`,
`inStock` `true` and the freshly generated id. -/
theorem post_creates_witness :
    postRoute seedProducts { name := some "Kettle", price := some (.num 30) } "fresh-id-4"
      = (.ok (201, createProduct { name := some "Kettle", price := some (.num 30) }
            "fresh-id-4"),
         seedProducts ++ [createProduct { name := some "Kettle", price := some (.num 30) }
            "fresh-id-4"])
    ∧ (createProduct { name := some "Kettle", price := some (.num 30) } "fresh-id-4").id
        = "fresh-id-4"
    ∧ (createProduct { name := some "Kettle", price := some (.num 30) } "fresh-id-4").name
        = (({ name := some "Kettle", price := some (.num 30) } : ReqBody).name).getD ""
    ∧ (createProduct { name := some "Kettle", price := some (.num 30) } "fresh-id-4").price
        = priceNum ({ name := some "Kettle", price := some (.num 30) } : ReqBody).price
    ∧ (({ name := some "Kettle", price := some (.num 30) } : ReqBody).description = none →
        (createProduct { name := some "Kettle", price := some (.num 30) }
          "fresh-id-4").description = "")
    ∧ (({ name := some "Kettle", price := some (.num 30) } : ReqBody).category = none →
        (createProduct { name := some "Kettle", price := some (.num 30) }
          "fresh-id-4").category = "uncategorized")
    ∧ (({ name := some "Kettle", price := some (.num 30) } : ReqBody).inStock = none →
        (createProduct { name := some "Kettle", price := some (.num 30) }
          "fresh-id-4").inStock = true) :=
  post_creates seedProducts { name := some "Kettle", price := some (.num 30) }
    "fresh-id-4" rfl

/-- C8: for every update whose body passes validation and whose id is
found in the store, the response is 200 with the merged record: `name`,
`description`, `price` and `category` are overwritten exactly when the
body's value is truthy and kept otherwise, `inStock` is overwritten
exactly when present (even when `false`), the `id` is untouched, and
every record of the store at a position whose id differs from the target
is unchanged (the store keeps its length). -/
theorem put_merges (store : List Product) (id : String) (body : ReqBody) (p : Product)
    (hv : validateProduct "PUT" body = .ok ())
    (hf : store.find? (fun q => q.id == id) = some p) :
    putRoute store id body
      = (.ok (mergeProduct body p), replaceFirst store id (mergeProduct body))
    ∧ (∀ s, body.name = some s → ¬ s.isEmpty → (mergeProduct body p).name = s)
    ∧ ((body.name = none ∨ body.name = some "") → (mergeProduct body p).name = p.name)
    ∧ (∀ s, body.description = some s → ¬ s.isEmpty →
        (mergeProduct body p).description = s)
    ∧ ((body.description = none ∨ body.description = some "") →
        (mergeProduct body p).description = p.description)
    ∧ (∀ n, body.price = some (.num n) → n ≠ 0 → (mergeProduct body p).price = n)
    ∧ ((body.price = none ∨ body.price = some (.num 0)) →
        (mergeProduct body p).price = p.price)
    ∧ (∀ s, body.category = some s → ¬ s.isEmpty → (mergeProduct body p).category = s)
    ∧ ((body.category = none ∨ body.category = some "") →
        (mergeProduct body p).category = p.category)
    ∧ (∀ b, body.inStock = some b → (mergeProduct body p).inStock = b)
    ∧ (body.inStock = none → (mergeProduct body p).inStock = p.inStock)
    ∧ (mergeProduct body p).id = p.id
    ∧ (putRoute store id body).2.length = store.length
    ∧ (∀ i d, (store.getD i d).id ≠ id → (putRoute store id body).2.getD i d
        = store.getD i d) := by
  have hroute : putRoute store id body
      = (.ok (mergeProduct body p), replaceFirst store id (mergeProduct body)) := by
    unfold putRoute
    rw [hv, hf]
  refine ⟨hroute, ?_, ?_, ?_, ?_, ?_, ?_, ?_, ?_, ?_, ?_, rfl, ?_, ?_⟩
  · intro s hs hne
    simp [mergeProduct, jsOrStr, hs, hne]
  · rintro (h | h)
    · simp [mergeProduct, jsOrStr, h]
    · simp [mergeProduct, jsOrStr, h]
      exact fun h' => absurd h' (by decide)
  · intro s hs hne
    simp [mergeProduct, jsOrStr, hs, hne]
  · rintro (h | h)
    · simp [mergeProduct, jsOrStr, h]
    · simp [mergeProduct, jsOrStr, h]
      exact fun h' => absurd h' (by decide)
  · intro n hn hne
    simp [mergeProduct, hn, hne]
  · rintro (h | h) <;> simp [mergeProduct, h]
  · intro s hs hne
    simp [mergeProduct, jsOrStr, hs, hne]
  · rintro (h | h)
    · simp [mergeProduct, jsOrStr, h]
    · simp [mergeProduct, jsOrStr, h]
      exact fun h' => absurd h' (by decide)
  · intro b hb
    simp [mergeProduct, hb]
  · intro h
    simp [mergeProduct, h]
  · rw [hroute]
    exact replaceFirst_length store id (mergeProduct body)
  · intro i d hne
    rw [hroute]
    exact replaceFirst_getD_ne store id (mergeProduct body) d i hne

/-- C8 witness: the corrected update scenario — `PUT /api/products/2` with
`{"name":"Smartphone","price":750}` against the seeded store, applying
the merge theorem to the found record. -/
theorem put_merges_witness :
    putRoute seedProducts "2" { name := some "Smartphone", price := some (.num 750) }
      = (.ok (mergeProduct { name := some "Smartphone", price := some (.num 750) }
            { id := "2", name := "Smartphone",
              description := "Latest model with 128GB storage",
              price := 800, category := "electronics", inStock := true }),
         replaceFirst seedProducts "2"
           (mergeProduct { name := some "Smartphone", price := some (.num 750) })) :=
  (put_merges seedProducts "2" { name := some "Smartphone", price := some (.num 750) }
    { id := "2", name := "Smartphone",
      description := "Latest model with 128GB storage",
      price := 800, category := "electronics", inStock := true } rfl rfl).1

/-- C9: under the hypothesis that the uuid generator returns an id
distinct from every stored id, no two records of any reachable store share
an id — the seed is duplicate-free, create appends the fresh id, update
never touches ids, delete only removes records — and the record a
successful create returns carries an id absent from the prior store. -/
theorem store_ids_nodup :
    (∀ s, Reachable s → (s.map Product.id).Nodup)
    ∧ (∀ (s : List Product) (body : ReqBody) (newId : String) (st : Int) (p : Product),
        (∀ q ∈ s, q.id ≠ newId) → (postRoute s body newId).1 = .ok (st, p)
        → p.id ∉ s.map Product.id) := by
  constructor
  · intro s hs
    induction hs with
    | seed => decide
    | create s body newId h hfresh ih =>
      unfold postRoute
      cases hval : validateProduct "POST" body with
      | error e => exact ih
      | ok u =>
        show ((s ++ [createProduct body newId]).map Product.id).Nodup
        simp only [List.map_append, List.map_cons, List.map_nil]
        refine List.Nodup.append ih (List.nodup_singleton _) ?_
        intro a ha hb
        rw [List.mem_singleton] at hb
        subst hb
        obtain ⟨q, hq, hqa⟩ := List.mem_map.mp ha
        exact hfresh q hq hqa
    | update s id body h ih =>
      unfold putRoute
      cases hval : validateProduct "PUT" body with
      | error e => exact ih
      | ok u =>
        cases hfind : s.find? (fun p => p.id == id) with
        | none => exact ih
        | some p =>
          show ((replaceFirst s id (mergeProduct body)).map Product.id).Nodup
          rw [replaceFirst_map_id s id (mergeProduct body)
            (fun q => mergeProduct_id body q)]
          exact ih
    | del s id h ih =>
      unfold deleteRoute
      by_cases hex : s.any (fun p => p.id == id) = true
      · rw [if_pos hex]
        show ((s.filter (fun p => p.id != id)).map Product.id).Nodup
        exact List.Nodup.sublist (List.Sublist.map Product.id (List.filter_sublist s)) ih
      · rw [if_neg hex]
        exact ih
  · intro s body newId st p hfresh hok
    unfold postRoute at hok
    cases hval : validateProduct "POST" body with
    | error e =>
      rw [hval] at hok
      simp at hok
    | ok u =>
      rw [hval] at hok
      simp only [Except.ok.injEq, Prod.mk.injEq] at hok
      intro hmem
      obtain ⟨q, hq, hqa⟩ := List.mem_map.mp hmem
      rw [← hok.2] at hqa
      exact hfresh q hq hqa

/-- C9 witness: the seed store is reachable and duplicate-free, and a
create with a fresh id against the seed returns a record whose id is new. -/
theorem store_ids_nodup_witness :
    (seedProducts.map Product.id).Nodup
    ∧ (createProduct { name := some "Kettle", price := some (.num 30) } "k4").id
        ∉ seedProducts.map Product.id :=
  ⟨store_ids_nodup.1 seedProducts Reachable.seed,
   store_ids_nodup.2 seedProducts { name := some "Kettle", price := some (.num 30) }
     "k4" 201 (createProduct { name := some "Kettle", price := some (.num 30) } "k4")
     (by decide) rfl⟩

/-- C10: the mutating routes are atomic on failure — whenever POST, PUT or
DELETE produces an error (validation failure or missing id), the store
after the request equals the store before it, because each handler checks
validity and existence before mutating. -/
theorem mutators_atomic (store : List Product) (body : ReqBody)
    (newId pid did : String) :
    (∀ e, (postRoute store body newId).1 = .error e
        → (postRoute store body newId).2 = store)
    ∧ (∀ e, (putRoute store pid body).1 = .error e
        → (putRoute store pid body).2 = store)
    ∧ (∀ e, (deleteRoute store did).1 = .error e
        → (deleteRoute store did).2 = store) := by
  refine ⟨?_, ?_, ?_⟩
  · intro e he
    unfold postRoute
    cases hval : validateProduct "POST" body with
    | error e' => rfl
    | ok u =>
      unfold postRoute at he
      rw [hval] at he
      simp at he
  · intro e he
    unfold putRoute
    cases hval : validateProduct "PUT" body with
    | error e' => rfl
    | ok u =>
      cases hfind : store.find? (fun p => p.id == pid) with
      | none => rfl
      | some p =>
        unfold putRoute at he
        rw [hval, hfind] at he
        simp at he
  · intro e he
    unfold deleteRoute at he ⊢
    by_cases hex : store.any (fun p => p.id == did) = true
    · rw [if_pos hex] at he
      simp at he
    · rw [if_neg hex]

/-- C10 witness: an invalid POST body, a PUT on a missing id and a DELETE
on a missing id each leave the seeded store untouched. -/
theorem mutators_atomic_witness :
    (postRoute seedProducts {} "u9").2 = seedProducts
    ∧ (putRoute seedProducts "999" { name := some "X", price := some (.num 5) }).2
        = seedProducts
    ∧ (deleteRoute seedProducts "999").2 = seedProducts :=
  ⟨(mutators_atomic seedProducts {} "u9" "999" "999").1
      (.validationError "Name and price are required") rfl,
   (mutators_atomic seedProducts { name := some "X", price := some (.num 5) }
      "u9" "999" "999").2.1 (.notFoundError "Product not found") rfl,
   (mutators_atomic seedProducts {} "u9" "999" "999").2.2
      (.notFoundError "Product not found") rfl⟩

end ProductApi
